import Mathlib

/-!
# Verification of the `andrgesture` spin-gesture state machine

Shallow embedding of `src/main.rs` (the single source file of the
repository).  Conventions used throughout:

* `f32` values (coordinates, spinner, reacted spin, squared lengths) are
  modelled as exact rationals `ℚ`; rounding of `f32` arithmetic is not
  modelled (all quantities in the claims are small and exactly
  representable).
* `Instant` / `SystemTime` values and `Duration`s are rationals measured in
  milliseconds; `Instant::now() + Duration::from_millis(d)` becomes
  `now + d`.
* Angles are measured in units of full turns: a value `v` stands for
  `2·π·v` radians.  `euclid`'s `Vec2::angle_from_x_axis` (an `atan2`, a
  transcendental function) is not computable over `ℚ`, so the angle of a
  sample is carried alongside the sample as a separate input and is only
  consumed through `angle_to`.  `euclid`'s `Angle::angle_to` returns the
  shortest signed difference in `(-π, π]`; in turn units this is the wrap
  of the difference into `(-1/2, 1/2]`, and the source's subsequent
  division `d.radians / PI / 2.0` is folded into the unit choice.
* `as i32` casts of `f32` values truncate toward zero (`truncToInt`);
  saturation at `±2^31` is not modelled (reacted-spin counters in the
  claims are tiny).
* The fields of `Opts` keep the source's names; durations and geometry are
  `ℚ`, the spin requirements hold the value of the source's
  `usize as i32` cast, and the keycode is a `ℕ`.
-/

namespace Andrgesture

/-- Configuration surface of the program (struct `Opts` in `main.rs`),
restricted to the fields the gesture core reads. -/
structure Opts where
  center_x : ℚ
  center_y : ℚ
  radius : ℚ
  cw_spins_required : ℤ
  ccw_spins_required : ℤ
  after_buttonpress_attention_time_ms : ℚ
  after_spin_attention_time_ms : ℚ
  after_successful_cw_spin_sequence_attention_time : ℚ
  gesture_timeout_ms : ℚ
  keycode_to_monitor : ℕ
  max_jump_distance : ℚ
deriving DecidableEq

/-- `struct GestureState` of `main.rs`; the point `prev` is split into its
two coordinates. -/
structure GestureState where
  deadline : ℚ
  prev_x : ℚ
  prev_y : ℚ
  prev_angle : ℚ
  spinner : ℚ
  reacted_spin : ℚ
deriving DecidableEq

/-- `GestureState::new` as generated by `derive_new`: `spinner` and
`reacted_spin` default to `0`. -/
def GestureState.new (deadline px py a : ℚ) : GestureState :=
  ⟨deadline, px, py, a, 0, 0⟩

/-- `enum State` of `main.rs`. -/
inductive State where
  | waitingForKeyboard : State
  | waitingForTouches (deadline : ℚ) (gesture : Option GestureState) : State
deriving DecidableEq

/-- Which external command line is spawned (`cmdline_for_cw_spins` or
`cmdline_for_ccw_spins`). -/
inductive Cmd where
  | cw : Cmd
  | ccw : Cmd
deriving DecidableEq

/-- A spin reaction as printed by the source (`SPIN CW ctr` / `SPIN CCW
ctr`), carrying the counter `g.reacted_spin as i32`. -/
inductive Reaction where
  | cw (ctr : ℤ) : Reaction
  | ccw (ctr : ℤ) : Reaction
deriving DecidableEq

/-- Observable effects of one loop iteration: the emitted spin reaction (if
any), the spawned command (if any), and whether the
`Spinned in the opposite direction` reversal message was printed. -/
structure Obs where
  reaction : Option Reaction
  command : Option Cmd
  reversal : Bool
deriving DecidableEq

/-- An iteration with no observable effect. -/
def noObs : Obs := ⟨none, none, false⟩

/-- Result of processing one touch sample while armed: the new
attention-window deadline (`touch_deadline` in the source), the gesture
slot after the call, and the observable effects. -/
structure TouchOut where
  touch_deadline : ℚ
  gesture : Option GestureState
  obs : Obs
deriving DecidableEq

/-- Fractional part: `fract q = q - ⌊q⌋ ∈ [0, 1)`. -/
def fract (q : ℚ) : ℚ := q - (q.num.fdiv (q.den : ℤ) : ℤ)

/-- `euclid`'s `Angle::angle_to` in turn units: the shortest signed
difference `b - a` wrapped into `(-1/2, 1/2]` (the source's
`(-π, π]` divided by `2π`). -/
def angle_to (a b : ℚ) : ℚ :=
  let w := fract (b - a)
  if w > 1/2 then w - 1 else w

/-- An `f32 as i32` cast: truncation toward zero. -/
def truncToInt (q : ℚ) : ℤ :=
  if q.num < 0 then -(((-q.num).toNat / q.den : ℕ) : ℤ)
  else ((q.num.toNat / q.den : ℕ) : ℤ)

/-- `sqradius` of `main.rs`: `opts.radius as f32 * opts.radius as f32`. -/
def sqRadius (o : Opts) : ℚ := o.radius * o.radius

/-- `sqmaxd` of `main.rs`:
`opts.max_jump_distance as f32 * opts.max_jump_distance as f32`. -/
def sqMaxd (o : Opts) : ℚ := o.max_jump_distance * o.max_jump_distance

/-- `inside_area` of `main.rs` (lines 164-166): with `v = p - center`,
`v.square_length() <= sqradius && v.square_length() * 64.0 > sqradius`. -/
def insideArea (o : Opts) (px py : ℚ) : Bool :=
  let vx := px - o.center_x
  let vy := py - o.center_y
  let sqlen := vx * vx + vy * vy
  decide (sqlen ≤ sqRadius o) && decide (sqlen * 64 > sqRadius o)

/-- Squared distance `(p - g.prev).square_length()` used by the jump
check. -/
def jumpSq (g : GestureState) (px py : ℚ) : ℚ :=
  (px - g.prev_x) * (px - g.prev_x) + (py - g.prev_y) * (py - g.prev_y)

/-- The three-branch threshold-crossing policy (lines 195-221), acting on
the previous `reacted_spin` `r` and the already-updated `spinner` value.
Returns `(reacted_spin', react_cw, react_ccw, reversal)` where `reversal`
records the `Spinned in the opposite direction` branch (which sets
`remove_gesture`). -/
def spinReact (r spinner1 : ℚ) : ℚ × Bool × Bool × Bool :=
  if r > 1/2 then
    if spinner1 ≥ r + 1 then (r + 1, true, false, false)
    else if spinner1 < r - 1 then (r, false, false, true)
    else (r, false, false, false)
  else if r < -(1/2) then
    if spinner1 ≤ r - 1 then (r - 1, false, true, false)
    else if spinner1 > r + 1 then (r, false, false, true)
    else (r, false, false, false)
  else
    if spinner1 ≥ r + 1 then (r + 1, true, false, false)
    else if spinner1 < r - 1 then (r - 1, false, true, false)
    else (r, false, false, false)

/-- The `if inside_area { ... }` block of lines 185-252 together with the
trailing `g.prev = p` and the final `if remove_gesture` removal, for a
sample inside the validity zone.  `remove1` is the value of
`remove_gesture` accumulated by the expiry and jump checks (lines
179-184). -/
def insideStep (o : Opts) (now td : ℚ) (g : GestureState) (px py a : ℚ)
    (remove1 : Bool) : TouchOut :=
  let d := angle_to g.prev_angle a
  let spinner1 := g.spinner + d
  let t := spinReact g.reacted_spin spinner1
  let reacted1 := t.1
  let react_cw := t.2.1
  let react_ccw := t.2.2.1
  let reversal := t.2.2.2
  let remove2 := remove1 || reversal
  let td1 := if react_cw || react_ccw
    then now + o.after_spin_attention_time_ms else td
  let ctr : ℤ := truncToInt reacted1
  let cwSuccess : Bool := react_cw && decide (ctr ≥ o.cw_spins_required)
  let td2 := if cwSuccess
    then now + o.after_successful_cw_spin_sequence_attention_time else td1
  let cmd0 : Option Cmd := if cwSuccess then some Cmd.cw else none
  let cmd1 : Option Cmd :=
    if react_ccw && decide (-ctr ≥ o.ccw_spins_required)
    then some Cmd.ccw else cmd0
  let reaction : Option Reaction :=
    if react_cw then some (Reaction.cw ctr)
    else if react_ccw then some (Reaction.ccw ctr)
    else none
  let g1 : GestureState :=
    { deadline := now + o.gesture_timeout_ms
      prev_x := px
      prev_y := py
      prev_angle := a
      spinner := spinner1
      reacted_spin := reacted1 }
  ⟨td2, if remove2 then none else some g1, ⟨reaction, cmd1, reversal⟩⟩

/-- Processing of one touch sample while `State::WaitingForTouches`
(lines 156-258): lazy gesture creation when the sample is inside the
annulus and no gesture exists, then the expiry check, jump check,
angle/threshold processing (when inside the zone) or the
`prev`-only update (when outside), and the final removal. -/
def touchSample (o : Opts) (now td : ℚ) (gesture0 : Option GestureState)
    (px py a : ℚ) : TouchOut :=
  let inside := insideArea o px py
  let gesture1 : Option GestureState :=
    if inside && gesture0.isNone then
      some (GestureState.new (now + o.gesture_timeout_ms) px py a)
    else gesture0
  match gesture1 with
  | none => ⟨td, none, noObs⟩
  | some g =>
    let remove1 : Bool :=
      decide (now > g.deadline) || decide (jumpSq g px py > sqMaxd o)
    if inside then insideStep o now td g px py a remove1
    else
      ⟨td,
       if remove1 then none
       else some { g with prev_x := px, prev_y := py },
       noObs⟩

/-- A keyboard input event as seen by the source: `k.0` (the keycode),
`ev.value()` and `ev.timestamp()` (as a `ℚ` millisecond wall-clock
value). -/
structure KeyEvent where
  keycode : ℕ
  value : ℤ
  timestamp : ℚ
deriving DecidableEq

/-- Handling of one keyboard event in `State::WaitingForKeyboard`
(lines 106-133): on `value == 1` and the configured keycode, the event
arms the machine iff `ev.timestamp().duration_since(stnow)` is `Ok`,
i.e. iff `stnow ≤ timestamp`, where `stnow` is the `SystemTime::now()`
captured just before this iteration's `poll` (line 103).  Arming sets
`deadline = now + after_buttonpress_attention_time_ms` with no gesture. -/
def keyEventStep (o : Opts) (stnow now : ℚ) (st : State) (ev : KeyEvent) :
    State :=
  if ev.value = 1 ∧ ev.keycode = o.keycode_to_monitor then
    if stnow ≤ ev.timestamp then
      State.waitingForTouches (now + o.after_buttonpress_attention_time_ms)
        none
    else st
  else st

/-- One `WaitingForKeyboard` loop iteration: fold `keyEventStep` over the
batch of events returned by `fetch_events`. -/
def keyIter (o : Opts) (stnow now : ℚ) (evs : List KeyEvent) (st : State) :
    State :=
  evs.foldl (keyEventStep o stnow now) st

/-- A touch sample as consumed while armed: the cached absolute position
`(x, y)` and the turn-unit angle of `p - center` (the value
`v.angle_from_x_axis()` would produce; carried as data because `atan2`
is transcendental). -/
structure Sample where
  x : ℚ
  y : ℚ
  angle : ℚ
deriving DecidableEq

/-- The external input consumed by one iteration of the main loop: either a
keyboard poll round (with the `SystemTime::now()` captured before the
poll, the `Instant` at the top of the loop, and the fetched events) or a
touch poll round (with the `Instant` at the top of the loop and the cached
absolute position, `none` when `poll` timed out or no absolute values are
available). -/
inductive IterInput where
  | key (stnow now : ℚ) (evs : List KeyEvent) : IterInput
  | touch (now : ℚ) (sample : Option Sample) : IterInput
deriving DecidableEq

/-- One iteration of the main `loop` (lines 97-265).  In
`WaitingForKeyboard` only keyboard input is polled; in
`WaitingForTouches` the attention deadline is checked first
(lines 142-146, returning to `WaitingForKeyboard`), then the sample, if
any, is processed.  An input of the kind the current state does not poll
is ignored (the source never polls the other device in that state). -/
def loopStep (o : Opts) (st : State) (i : IterInput) : State × Obs :=
  match st, i with
  | State.waitingForKeyboard, IterInput.key stnow now evs =>
    (keyIter o stnow now evs State.waitingForKeyboard, noObs)
  | State.waitingForTouches td g, IterInput.touch now sample =>
    if now > td then (State.waitingForKeyboard, noObs)
    else
      match sample with
      | none => (State.waitingForTouches td g, noObs)
      | some s =>
        let out := touchSample o now td g s.x s.y s.angle
        (State.waitingForTouches out.touch_deadline out.gesture, out.obs)
  | st, _ => (st, noObs)

/-- Run the main loop over a list of iteration inputs, returning the final
state and the per-iteration observable effects. -/
def runLoop (o : Opts) (st : State) : List IterInput → State × List Obs
  | [] => (st, [])
  | i :: rest =>
    let p := loopStep o st i
    let q := runLoop o p.1 rest
    (q.1, p.2 :: q.2)

/-- The `Opts` defaults of `main.rs` (geometry, timing, keycode), with
`cw_spins_required = 2` and `ccw_spins_required = 2` as in the
required-count-gating scenario of the specification. -/
def opts2 : Opts :=
  { center_x := 1126
    center_y := 748
    radius := 500
    cw_spins_required := 2
    ccw_spins_required := 2
    after_buttonpress_attention_time_ms := 4000
    after_spin_attention_time_ms := 4000
    after_successful_cw_spin_sequence_attention_time := 60000
    gesture_timeout_ms := 300
    keycode_to_monitor := 116
    max_jump_distance := 200 }

/-- `opts2` with `cw_spins_required = 1`. -/
def opts1 : Opts := { opts2 with cw_spins_required := 1 }

/-- Ten concrete touch samples spaced a tenth of a turn apart on a circle
of radius about 300 around the configured center `(1126, 748)`
(integer approximations of `300·(cos 2πk/10, sin 2πk/10)`).  Every point
lies inside the validity annulus for `radius = 500` (`3906.25 <
square_length ≤ 250000`), consecutive points (cyclically) are within the
`max_jump_distance = 200` of each other, and each carried angle is the
turn-unit value of the point's `atan2` wrapped into `(-1/2, 1/2]`. -/
def decagonSamples : List Sample :=
  [⟨1426, 748, 0⟩, ⟨1369, 924, 1/10⟩, ⟨1219, 1033, 1/5⟩,
   ⟨1033, 1033, 3/10⟩, ⟨883, 924, 2/5⟩, ⟨826, 748, 1/2⟩,
   ⟨883, 572, -(2/5)⟩, ⟨1033, 463, -(3/10)⟩, ⟨1219, 463, -(1/5)⟩,
   ⟨1369, 572, -(1/10)⟩]

/-- The `k`-th decagon sample, cyclically. -/
def decagonSample (k : ℕ) : Sample :=
  decagonSamples.getD (k % 10) ⟨1426, 748, 0⟩

/-- Iteration inputs delivering `n` full clockwise revolutions as `10·n + 1`
consecutive decagon samples (the first one creates the gesture, each
further sample advances `spinner` by exactly `1/10`), all at time `0`. -/
def cwRevolutionInputs (n : ℕ) : List IterInput :=
  (List.range (10 * n + 1)).map
    (fun k => IterInput.touch 0 (some (decagonSample k)))

/-- The spin reactions emitted along a run. -/
def reactionsOf (obs : List Obs) : List Reaction :=
  obs.filterMap Obs.reaction

/-- The external commands spawned along a run. -/
def commandsOf (obs : List Obs) : List Cmd :=
  obs.filterMap Obs.command

/-! ## Basic lemmas about the embedded operations -/

theorem fract_zero : fract 0 = 0 := by
  unfold fract
  norm_num

theorem angle_to_self (a : ℚ) : angle_to a a = 0 := by
  unfold angle_to
  rw [sub_self, fract_zero]
  norm_num

theorem truncToInt_zero : truncToInt 0 = 0 := by
  unfold truncToInt
  norm_num

theorem sqMaxd_nonneg (o : Opts) : 0 ≤ sqMaxd o := mul_self_nonneg _

/-- Exhaustive description of the threshold-crossing policy: it either
leaves `reacted_spin` alone (no reaction flag), or moves it by exactly
`+1` (CW flag, only when the new spinner has reached `reacted_spin + 1`
and the gesture was not CCW-committed), or by exactly `-1` (CCW flag,
only when the new spinner has reached `reacted_spin - 1` and the gesture
was not CW-committed). -/
theorem spinReact_spec (r s : ℚ) :
    ((spinReact r s).1 = r ∧ (spinReact r s).2.1 = false ∧
      (spinReact r s).2.2.1 = false) ∨
    ((spinReact r s).1 = r + 1 ∧ s ≥ r + 1 ∧ ¬ r < -(1/2) ∧
      (spinReact r s).2.1 = true ∧ (spinReact r s).2.2.1 = false) ∨
    ((spinReact r s).1 = r - 1 ∧ s ≤ r - 1 ∧ ¬ r > 1/2 ∧
      (spinReact r s).2.1 = false ∧ (spinReact r s).2.2.1 = true) := by
  unfold spinReact
  split_ifs with h1 h2 h3 h4 h5 h6 h7 h8 <;> simp_all <;> try linarith

theorem spinReact_not_both (r s : ℚ) :
    ¬((spinReact r s).2.1 = true ∧ (spinReact r s).2.2.1 = true) := by
  unfold spinReact
  split_ifs <;> simp

/-- Evaluation of `touchSample` on an existing gesture: no creation
happens; the expiry and jump checks feed `remove_gesture` and the sample
is processed by the inside-zone block or the `prev`-only update. -/
theorem touchSample_some (o : Opts) (now td : ℚ) (g : GestureState)
    (px py a : ℚ) :
    touchSample o now td (some g) px py a =
      (if insideArea o px py then
        insideStep o now td g px py a
          (decide (now > g.deadline) || decide (jumpSq g px py > sqMaxd o))
      else
        ⟨td,
         if decide (now > g.deadline) || decide (jumpSq g px py > sqMaxd o)
         then none else some { g with prev_x := px, prev_y := py },
         noObs⟩) := by
  unfold touchSample
  simp

/-- Evaluation of `touchSample` with no gesture: a sample inside the zone
creates a fresh gesture (which is then processed by the same call), any
other sample does nothing. -/
theorem touchSample_none (o : Opts) (now td px py a : ℚ) :
    touchSample o now td none px py a =
      (if insideArea o px py then
        insideStep o now td (GestureState.new (now + o.gesture_timeout_ms) px py a)
          px py a
          (decide (now > now + o.gesture_timeout_ms) || decide (0 > sqMaxd o))
      else ⟨td, none, noObs⟩) := by
  unfold touchSample
  rcases h : insideArea o px py <;>
    simp [h, GestureState.new, jumpSq, sub_self]

/-- When `remove_gesture` was already set by the expiry or jump check, the
inside-zone block still drops the gesture at the end of the call. -/
theorem insideStep_gesture_of_remove (o : Opts) (now td : ℚ)
    (g : GestureState) (px py a : ℚ) :
    (insideStep o now td g px py a true).gesture = none := by
  unfold insideStep
  simp

/-- The gesture surviving an inside-zone step carries the updated spinner
and the threshold policy's updated reacted spin. -/
theorem insideStep_gesture_eq (o : Opts) (now td : ℚ) (g : GestureState)
    (px py a : ℚ) (rm : Bool) (h : GestureState)
    (hh : (insideStep o now td g px py a rm).gesture = some h) :
    h.reacted_spin =
      (spinReact g.reacted_spin (g.spinner + angle_to g.prev_angle a)).1 ∧
    h.spinner = g.spinner + angle_to g.prev_angle a := by
  unfold insideStep at hh
  simp only at hh
  split at hh
  · exact absurd hh (by simp)
  · cases hh
    exact ⟨rfl, rfl⟩

/-- An inside-zone step on a freshly created gesture is a no-op except for
the initialization itself: the angle delta to the creating sample is `0`,
so no reaction, no command, no deadline change, and the gesture fields
keep their initial values. -/
theorem insideStep_fresh (o : Opts) (now td px py a : ℚ) :
    insideStep o now td (GestureState.new (now + o.gesture_timeout_ms) px py a)
      px py a false =
      ⟨td, some ⟨now + o.gesture_timeout_ms, px, py, a, 0, 0⟩, noObs⟩ := by
  unfold insideStep GestureState.new
  simp only [angle_to_self, add_zero, zero_add]
  norm_num [spinReact, truncToInt, noObs]

/-- An armed call with no gesture and a sample inside the zone creates the
gesture and leaves it untouched for the rest of the call (provided the
configured gesture timeout is nonnegative, as it is for every `u32`
option value). -/
theorem touchSample_create (o : Opts) (now td px py a : ℚ)
    (ht : 0 ≤ o.gesture_timeout_ms) (hin : insideArea o px py = true) :
    touchSample o now td none px py a =
      ⟨td, some ⟨now + o.gesture_timeout_ms, px, py, a, 0, 0⟩, noObs⟩ := by
  rw [touchSample_none, hin]
  have h1 : ¬ now > now + o.gesture_timeout_ms :=
    not_lt.2 (le_add_of_nonneg_right ht)
  have h2 : ¬ (0 : ℚ) > sqMaxd o := not_lt.2 (sqMaxd_nonneg o)
  simp only [if_true, decide_eq_false h1, decide_eq_false h2, Bool.or_false]
  exact insideStep_fresh o now td px py a

/-- The `insideArea` test, unfolded to the annulus condition of the
specification. -/
theorem insideArea_iff (o : Opts) (px py : ℚ) :
    insideArea o px py = true ↔
      ((px - o.center_x) * (px - o.center_x) +
        (py - o.center_y) * (py - o.center_y) ≤ o.radius * o.radius ∧
       ((px - o.center_x) * (px - o.center_x) +
        (py - o.center_y) * (py - o.center_y)) * 64 > o.radius * o.radius) := by
  unfold insideArea sqRadius
  simp

/-! ## Claim theorems -/

/-- C10: when the machine is armed with no gesture, a sample inside the
validity zone creates a gesture initialized from that sample
(`prev = p`, `prev_angle = a`, `spinner = 0`, `reacted_spin = 0`,
`deadline = now + gesture_timeout`), and the same call neither
jump-invalidates, expires, reacts on, nor drops the fresh gesture: the
whole call returns the initialized gesture with no observable effect and
an unchanged attention deadline. -/
theorem C10_lazy_creation (o : Opts) (now td px py a : ℚ)
    (ht : 0 ≤ o.gesture_timeout_ms) (hin : insideArea o px py = true) :
    touchSample o now td none px py a =
      ⟨td, some ⟨now + o.gesture_timeout_ms, px, py, a, 0, 0⟩, noObs⟩ :=
  touchSample_create o now td px py a ht hin

unseal Rat.add Rat.mul Rat.sub Rat.inv in
theorem C10_lazy_creation_witness :
    touchSample opts2 7 4000 none 1426 748 0 =
      ⟨4000, some ⟨7 + 300, 1426, 748, 0, 0, 0⟩, noObs⟩ :=
  C10_lazy_creation opts2 7 4000 1426 748 0 (by decide) (by decide)

/-- C9: with the machine armed and no gesture, a call creates a gesture
exactly when the sample satisfies the annulus condition
`sq_len ≤ radius² ∧ sq_len · 64 > radius²`, where `sq_len` is the squared
length of the vector from the configured center to the raw sample; the
classification is recomputed inside every call from the raw sample. -/
theorem C9_annulus_classification (o : Opts) (now td px py a : ℚ)
    (ht : 0 ≤ o.gesture_timeout_ms) :
    (touchSample o now td none px py a).gesture.isSome = true ↔
      ((px - o.center_x) * (px - o.center_x) +
        (py - o.center_y) * (py - o.center_y) ≤ o.radius * o.radius ∧
       ((px - o.center_x) * (px - o.center_x) +
        (py - o.center_y) * (py - o.center_y)) * 64 > o.radius * o.radius) := by
  rw [← insideArea_iff]
  rcases hin : insideArea o px py
  · rw [touchSample_none, hin]
    simp
  · rw [touchSample_create o now td px py a ht hin]
    simp

unseal Rat.add Rat.mul Rat.sub Rat.inv in
theorem C9_annulus_classification_witness :
    (touchSample opts2 0 4000 none 1426 748 0).gesture.isSome = true :=
  (C9_annulus_classification opts2 0 4000 1426 748 0 (by decide)).2
    (by constructor <;> decide)

/-- C8: a sample whose squared distance from the existing gesture's
`prev` point exceeds `max_jump_distance²` always leaves the gesture slot
empty at the end of the call, whatever the sample's zone membership or
angle. -/
theorem C8_jump_invalidation (o : Opts) (now td : ℚ) (g : GestureState)
    (px py a : ℚ) (hj : jumpSq g px py > sqMaxd o) :
    (touchSample o now td (some g) px py a).gesture = none := by
  rw [touchSample_some]
  simp only [decide_eq_true hj, Bool.or_true]
  split
  · exact insideStep_gesture_of_remove o now td g px py a
  · simp

unseal Rat.add Rat.mul Rat.sub Rat.inv in
theorem C8_jump_invalidation_witness :
    (touchSample opts2 0 4000 (some ⟨300, 1426, 748, 0, 0, 0⟩)
      2126 748 0).gesture = none :=
  C8_jump_invalidation opts2 0 4000 ⟨300, 1426, 748, 0, 0, 0⟩ 2126 748 0
    (by decide)

/-- C7: a sample outside the validity zone that neither expires nor
jump-invalidates the existing gesture changes nothing except `prev`:
the call keeps the gesture with `spinner`, `reacted_spin`, `prev_angle`
and the gesture deadline untouched, updates `prev` to the sample's
position, extends no attention deadline and emits no reaction or
command. -/
theorem C7_outside_zone_noop (o : Opts) (now td : ℚ) (g : GestureState)
    (px py a : ℚ) (hin : insideArea o px py = false)
    (hexp : ¬ now > g.deadline) (hj : ¬ jumpSq g px py > sqMaxd o) :
    touchSample o now td (some g) px py a =
      ⟨td, some { g with prev_x := px, prev_y := py }, noObs⟩ := by
  rw [touchSample_some, hin]
  simp [decide_eq_false hexp, decide_eq_false hj]

unseal Rat.add Rat.mul Rat.sub Rat.inv in
theorem C7_outside_zone_noop_witness :
    touchSample opts2 5 4000 (some ⟨10, 1126, 748, 0, 0, 0⟩) 1126 748 0 =
      ⟨4000, some ⟨10, 1126, 748, 0, 0, 0⟩, noObs⟩ :=
  C7_outside_zone_noop opts2 5 4000 ⟨10, 1126, 748, 0, 0, 0⟩ 1126 748 0
    (by decide) (by decide) (by decide)

unseal Rat.add Rat.mul Rat.sub Rat.inv in
/-- C2 (as stated) is false on the code: an update call that arrives
strictly after the gesture's deadline only marks the gesture for removal
and still processes the sample in full.  Concrete counterexample with
`cw_spins_required = 1`: the gesture's deadline is `0`, the call happens
at `now = 1`, the sample is inside the zone and advances `spinner` from
`9/10` to `1`, so the call emits a `CW` reaction, invokes the CW command
and extends the attention deadline — all before dropping the gesture. -/
theorem C2_expiry_counterexample :
    (1 : ℚ) > (⟨0, 1426, 748, 0, 9/10, 0⟩ : GestureState).deadline ∧
    (touchSample opts1 1 4000 (some ⟨0, 1426, 748, 0, 9/10, 0⟩)
      1369 924 (1/10)).obs.reaction = some (Reaction.cw 1) ∧
    (touchSample opts1 1 4000 (some ⟨0, 1426, 748, 0, 9/10, 0⟩)
      1369 924 (1/10)).obs.command = some Cmd.cw ∧
    (touchSample opts1 1 4000 (some ⟨0, 1426, 748, 0, 9/10, 0⟩)
      1369 924 (1/10)).touch_deadline = 60001 ∧
    (touchSample opts1 1 4000 (some ⟨0, 1426, 748, 0, 9/10, 0⟩)
      1369 924 (1/10)).gesture = none := by
  decide

/-- C2 (amended): when `now` is strictly after the gesture's deadline the
gesture is guaranteed to be dropped by the end of that call; the sample
is nevertheless still processed first, so reactions, commands and
deadline extensions may still be produced by the same call (see the
counterexample). -/
theorem C2_expiry_drops_gesture (o : Opts) (now td : ℚ) (g : GestureState)
    (px py a : ℚ) (h : now > g.deadline) :
    (touchSample o now td (some g) px py a).gesture = none := by
  rw [touchSample_some]
  simp only [decide_eq_true h, Bool.true_or]
  split
  · exact insideStep_gesture_of_remove o now td g px py a
  · simp

unseal Rat.add Rat.mul Rat.sub Rat.inv in
theorem C2_expiry_drops_gesture_witness :
    (touchSample opts2 1 4000 (some ⟨0, 1426, 748, 0, 0, 0⟩)
      1426 748 0).gesture = none :=
  C2_expiry_drops_gesture opts2 1 4000 ⟨0, 1426, 748, 0, 0, 0⟩ 1426 748 0
    (by decide)

/-- The keyboard-wait trace refuting C5 as stated.  The process starts at
time `0`: the first idle iteration captures `stnow = 0` and receives a
qualifying press of keycode `116` timestamped `0`, which arms the
machine until `4000`.  A touch iteration at `5000` expires the armed
window and returns to idle.  The third iteration (an idle poll round
starting at `6000`) receives a press of keycode `116`, `value = 1`,
timestamped `100` — not earlier than process start — which the code
nevertheless discards as stale because it compares the timestamp against
the `SystemTime::now()` captured at the start of the current poll
iteration, not against process start. -/
def c5inputs : List IterInput :=
  [IterInput.key 0 0 [⟨116, 1, 0⟩],
   IterInput.touch 5000 none,
   IterInput.key 6000 6000 [⟨116, 1, 100⟩]]

unseal Rat.add Rat.mul Rat.sub Rat.inv in
/-- C5 (as stated) is false on the code: in the `c5inputs` trace the final
keyboard event has `value = 1`, the configured keycode and a timestamp
(`100`) not earlier than the process-start time (`0`, the first
iteration's captured wall clock), yet the machine ends the trace still
idle — the Idle-to-Armed transition is not taken for it.  (The first
conjunct shows the first, equally qualifying event did arm the
machine.) -/
theorem C5_stale_counterexample :
    runLoop opts2 State.waitingForKeyboard (c5inputs.take 1) =
      (State.waitingForTouches 4000 none, [noObs]) ∧
    (⟨116, 1, 100⟩ : KeyEvent).value = 1 ∧
    (⟨116, 1, 100⟩ : KeyEvent).keycode = opts2.keycode_to_monitor ∧
    ((0 : ℚ) ≤ (⟨116, 1, 100⟩ : KeyEvent).timestamp) ∧
    runLoop opts2 State.waitingForKeyboard c5inputs =
      (State.waitingForKeyboard, [noObs, noObs, noObs]) := by
  decide

/-- C5 (amended): while idle, a keyboard event takes the machine to
`Armed` with deadline `now + after_buttonpress_attention_time` exactly
when `value == 1`, the keycode is the configured one, and the event's
timestamp is not earlier than the wall-clock time captured at the start
of the current keyboard-wait iteration (which coincides with process
start only for the first iteration); any other event — in particular any
event timestamped before process start — leaves the machine idle. -/
theorem C5_arming_condition (o : Opts) (stnow now : ℚ) (ev : KeyEvent) :
    (keyEventStep o stnow now State.waitingForKeyboard ev =
        State.waitingForTouches
          (now + o.after_buttonpress_attention_time_ms) none ↔
      (ev.value = 1 ∧ ev.keycode = o.keycode_to_monitor ∧
        stnow ≤ ev.timestamp)) ∧
    (¬ (ev.value = 1 ∧ ev.keycode = o.keycode_to_monitor ∧
        stnow ≤ ev.timestamp) →
      keyEventStep o stnow now State.waitingForKeyboard ev =
        State.waitingForKeyboard) := by
  unfold keyEventStep
  split_ifs with h1 h2 <;> simp_all

unseal Rat.add Rat.mul Rat.sub Rat.inv in
theorem C5_arming_condition_witness :
    keyEventStep opts2 7 7 State.waitingForKeyboard ⟨116, 1, 5⟩ =
      State.waitingForKeyboard :=
  (C5_arming_condition opts2 7 7 ⟨116, 1, 5⟩).2 (by decide)

set_option linter.unnecessarySeqFocus false in
/-- Deadline and command effects of the inside-zone block, for any gesture
and any prior `remove_gesture` value: a `CW` reaction whose counter meets
`cw_spins_required` sets the attention deadline to
`now + after_successful_cw_spin_sequence_attention_time` and spawns the
CW command; any other reaction sets it to
`now + after_spin_attention_time_ms`; a `CCW` reaction spawns the CCW
command exactly when its magnitude meets `ccw_spins_required` but never
gets the longer deadline; no reaction leaves the deadline alone and
spawns nothing. -/
theorem insideStep_spec (o : Opts) (now td : ℚ) (g : GestureState)
    (px py a : ℚ) (rm : Bool) :
    (∀ n : ℤ, (insideStep o now td g px py a rm).obs.reaction = some (Reaction.cw n) →
      (insideStep o now td g px py a rm).touch_deadline =
        now + (if n ≥ o.cw_spins_required
               then o.after_successful_cw_spin_sequence_attention_time
               else o.after_spin_attention_time_ms) ∧
      ((insideStep o now td g px py a rm).obs.command = some Cmd.cw ↔
        n ≥ o.cw_spins_required) ∧
      (insideStep o now td g px py a rm).obs.command ≠ some Cmd.ccw) ∧
    (∀ n : ℤ, (insideStep o now td g px py a rm).obs.reaction = some (Reaction.ccw n) →
      (insideStep o now td g px py a rm).touch_deadline =
        now + o.after_spin_attention_time_ms ∧
      ((insideStep o now td g px py a rm).obs.command = some Cmd.ccw ↔
        -n ≥ o.ccw_spins_required) ∧
      (insideStep o now td g px py a rm).obs.command ≠ some Cmd.cw) ∧
    ((insideStep o now td g px py a rm).obs.reaction = none →
      (insideStep o now td g px py a rm).touch_deadline = td ∧
      (insideStep o now td g px py a rm).obs.command = none) := by
  have hnb := spinReact_not_both g.reacted_spin
    (g.spinner + angle_to g.prev_angle a)
  unfold insideStep
  rcases hsp : spinReact g.reacted_spin (g.spinner + angle_to g.prev_angle a)
    with ⟨r1, cw, ccw, rev⟩
  rw [hsp] at hnb
  simp only [hsp]
  cases cw <;> cases ccw <;> simp_all <;>
    by_cases hreq : truncToInt r1 ≥ o.cw_spins_required <;>
    by_cases hreq2 : -(truncToInt r1) ≥ o.ccw_spins_required <;>
    simp_all
  all_goals split_ifs <;> simp_all

/-- C6: whenever a call emits a CW or CCW reaction it sets the
armed-window deadline to `now + after_spin_attention_time`; when the
reacted counter meets the required spin count the corresponding command
is spawned; only the CW success branch further overwrites the deadline
with `now + after_successful_cw_spin_sequence_attention_time`, while a
CCW success leaves it at `now + after_spin_attention_time`; a call with
no reaction neither moves the deadline nor spawns anything. -/
theorem C6_reaction_effects (o : Opts) (now td : ℚ)
    (g0 : Option GestureState) (px py a : ℚ) :
    (∀ n : ℤ, (touchSample o now td g0 px py a).obs.reaction = some (Reaction.cw n) →
      (touchSample o now td g0 px py a).touch_deadline =
        now + (if n ≥ o.cw_spins_required
               then o.after_successful_cw_spin_sequence_attention_time
               else o.after_spin_attention_time_ms) ∧
      ((touchSample o now td g0 px py a).obs.command = some Cmd.cw ↔
        n ≥ o.cw_spins_required) ∧
      (touchSample o now td g0 px py a).obs.command ≠ some Cmd.ccw) ∧
    (∀ n : ℤ, (touchSample o now td g0 px py a).obs.reaction = some (Reaction.ccw n) →
      (touchSample o now td g0 px py a).touch_deadline =
        now + o.after_spin_attention_time_ms ∧
      ((touchSample o now td g0 px py a).obs.command = some Cmd.ccw ↔
        -n ≥ o.ccw_spins_required) ∧
      (touchSample o now td g0 px py a).obs.command ≠ some Cmd.cw) ∧
    ((touchSample o now td g0 px py a).obs.reaction = none →
      (touchSample o now td g0 px py a).touch_deadline = td ∧
      (touchSample o now td g0 px py a).obs.command = none) := by
  cases g0 with
  | none =>
    rw [touchSample_none]
    rcases hin : insideArea o px py
    · simp [hin, noObs]
    · simp only [hin, if_true]
      exact insideStep_spec o now td _ px py a _
  | some g =>
    rw [touchSample_some]
    rcases hin : insideArea o px py
    · simp [hin, noObs]
    · simp only [hin, if_true]
      exact insideStep_spec o now td g px py a _

unseal Rat.add Rat.mul Rat.sub Rat.inv in
theorem C6_reaction_effects_witness :
    (touchSample opts2 5 4000 (some ⟨10, 1426, 748, 0, 19/10, 1⟩)
      1369 924 (1/10)).touch_deadline = 5 + 60000 ∧
    (touchSample opts2 5 4000 (some ⟨10, 1426, 748, 0, 19/10, 1⟩)
      1369 924 (1/10)).obs.command = some Cmd.cw := by
  have h := (C6_reaction_effects opts2 5 4000
    (some ⟨10, 1426, 748, 0, 19/10, 1⟩) 1369 924 (1/10)).1 2 (by decide)
  refine ⟨?_, h.2.1.2 (by decide)⟩
  rw [h.1]
  norm_num [opts2]

/-- Per-step behavior of `reacted_spin` on an existing gesture that
survives the call: it stays, or moves by exactly `±1`, increments only
when the updated spinner has reached `reacted_spin + 1` and the gesture
was not CCW-committed, decrements only when the updated spinner has
reached `reacted_spin - 1` and the gesture was not CW-committed, and
integer values are preserved. -/
theorem touchSample_some_reacted (o : Opts) (now td : ℚ) (g : GestureState)
    (px py a : ℚ) (h : GestureState)
    (hh : (touchSample o now td (some g) px py a).gesture = some h) :
    (h.reacted_spin = g.reacted_spin ∨ h.reacted_spin = g.reacted_spin + 1 ∨
      h.reacted_spin = g.reacted_spin - 1) ∧
    (h.reacted_spin = g.reacted_spin + 1 →
      h.spinner ≥ g.reacted_spin + 1 ∧ ¬ g.reacted_spin < -(1/2)) ∧
    (h.reacted_spin = g.reacted_spin - 1 →
      h.spinner ≤ g.reacted_spin - 1 ∧ ¬ g.reacted_spin > 1/2) ∧
    ((∃ m : ℤ, g.reacted_spin = (m : ℚ)) → ∃ m : ℤ, h.reacted_spin = (m : ℚ)) := by
  rw [touchSample_some] at hh
  rcases hin : insideArea o px py <;> rw [hin] at hh <;> simp at hh
  · rcases hh with ⟨hrm, hh⟩
    subst hh
    refine ⟨Or.inl rfl, ?_, ?_, fun hm => hm⟩
    · intro habs
      exact absurd habs (by intro q; linarith)
    · intro habs
      exact absurd habs (by intro q; linarith)
  · obtain ⟨hr, hs⟩ := insideStep_gesture_eq o now td g px py a _ h hh
    rcases spinReact_spec g.reacted_spin (g.spinner + angle_to g.prev_angle a)
      with ⟨e, _, _⟩ | ⟨e, hge, hnl, _, _⟩ | ⟨e, hle, hng, _, _⟩
    · rw [e] at hr
      refine ⟨Or.inl hr, ?_, ?_, fun hm => by rw [hr]; exact hm⟩
      · intro habs
        rw [hr] at habs
        exact absurd habs (by intro q; linarith)
      · intro habs
        rw [hr] at habs
        exact absurd habs (by intro q; linarith)
    · rw [e] at hr
      refine ⟨Or.inr (Or.inl hr), ?_, ?_, ?_⟩
      · intro _
        exact ⟨by rw [hs]; exact hge, hnl⟩
      · intro habs
        rw [hr] at habs
        exact absurd habs (by intro q; linarith)
      · rintro ⟨m, hm⟩
        exact ⟨m + 1, by rw [hr, hm]; push_cast; ring⟩
    · rw [e] at hr
      refine ⟨Or.inr (Or.inr hr), ?_, ?_, ?_⟩
      · intro habs
        rw [hr] at habs
        exact absurd habs (by intro q; linarith)
      · intro _
        exact ⟨by rw [hs]; exact hle, hng⟩
      · rintro ⟨m, hm⟩
        exact ⟨m - 1, by rw [hr, hm]; push_cast; ring⟩

/-- A gesture that exists at the end of a call that started with no
gesture is freshly created and has reacted nothing. -/
theorem touchSample_none_reacted (o : Opts) (now td px py a : ℚ)
    (h : GestureState)
    (hh : (touchSample o now td none px py a).gesture = some h) :
    h.reacted_spin = 0 := by
  rw [touchSample_none] at hh
  rcases hin : insideArea o px py <;> rw [hin] at hh <;> simp at hh
  obtain ⟨hr, _⟩ := insideStep_gesture_eq o now td _ px py a _ h hh
  rw [show (GestureState.new (now + o.gesture_timeout_ms) px py a).prev_angle = a from rfl,
    show (GestureState.new (now + o.gesture_timeout_ms) px py a).spinner = 0 from rfl,
    show (GestureState.new (now + o.gesture_timeout_ms) px py a).reacted_spin = 0 from rfl,
    angle_to_self, add_zero] at hr
  rw [hr]
  norm_num [spinReact]

/-- The invariant that any live gesture's `reacted_spin` holds an exact
integer value. -/
def reactedIntInv : State → Prop
  | State.waitingForKeyboard => True
  | State.waitingForTouches _ none => True
  | State.waitingForTouches _ (some g) => ∃ m : ℤ, g.reacted_spin = (m : ℚ)

theorem keyEventStep_reactedIntInv (o : Opts) (stnow now : ℚ) (st : State)
    (ev : KeyEvent) (h : reactedIntInv st) :
    reactedIntInv (keyEventStep o stnow now st ev) := by
  unfold keyEventStep
  split_ifs <;> first | exact h | exact trivial

theorem keyIter_reactedIntInv (o : Opts) (stnow now : ℚ)
    (evs : List KeyEvent) (st : State) (h : reactedIntInv st) :
    reactedIntInv (keyIter o stnow now evs st) := by
  unfold keyIter
  induction evs generalizing st with
  | nil => exact h
  | cons e es ih =>
    exact ih (keyEventStep o stnow now st e)
      (keyEventStep_reactedIntInv o stnow now st e h)

theorem loopStep_reactedIntInv (o : Opts) (st : State) (i : IterInput)
    (h : reactedIntInv st) : reactedIntInv (loopStep o st i).1 := by
  cases st with
  | waitingForKeyboard =>
    cases i with
    | key stnow now evs =>
      exact keyIter_reactedIntInv o stnow now evs State.waitingForKeyboard
        trivial
    | touch now sample => exact trivial
  | waitingForTouches td g =>
    cases i with
    | key stnow now evs => exact h
    | touch now sample =>
      dsimp only [loopStep]
      split_ifs with hexp
      · exact trivial
      cases sample with
      | none => exact h
      | some s =>
        simp only
        rcases hg : (touchSample o now td g s.x s.y s.angle).gesture
          with _ | h1
        · simp [reactedIntInv, hg]
        · cases g with
          | none =>
            simp only [reactedIntInv, hg]
            exact ⟨0, by
              rw [touchSample_none_reacted o now td s.x s.y s.angle h1 hg]
              norm_num⟩
          | some g0 =>
            simp only [reactedIntInv, hg]
            exact (touchSample_some_reacted o now td g0 s.x s.y s.angle
              h1 hg).2.2.2 h

theorem runLoop_reactedIntInv (o : Opts) (st : State)
    (inputs : List IterInput) (h : reactedIntInv st) :
    reactedIntInv (runLoop o st inputs).1 := by
  induction inputs generalizing st with
  | nil => exact h
  | cons i rest ih =>
    simp only [runLoop]
    exact ih (loopStep o st i).1 (loopStep_reactedIntInv o st i h)

/-- C4: on every update step of an existing gesture that keeps the gesture
alive, `reacted_spin` stays or changes by exactly `±1`; it increments only
when the updated `spinner` has crossed `reacted_spin + 1` and the gesture
was not CCW-committed (`reacted_spin < -1/2`), and decrements only when
the updated `spinner` has crossed `reacted_spin - 1` and the gesture was
not CW-committed (`reacted_spin > 1/2`); a freshly created gesture starts
at `reacted_spin = 0`, and consequently (third conjunct) every gesture
reachable by running the main loop from a state satisfying the integer
invariant keeps `reacted_spin` an exact integer. -/
theorem C4_reacted_spin_invariant :
    (∀ (o : Opts) (now td : ℚ) (g : GestureState) (px py a : ℚ)
        (h : GestureState),
      (touchSample o now td (some g) px py a).gesture = some h →
      (h.reacted_spin = g.reacted_spin ∨ h.reacted_spin = g.reacted_spin + 1 ∨
        h.reacted_spin = g.reacted_spin - 1) ∧
      (h.reacted_spin = g.reacted_spin + 1 →
        h.spinner ≥ g.reacted_spin + 1 ∧ ¬ g.reacted_spin < -(1/2)) ∧
      (h.reacted_spin = g.reacted_spin - 1 →
        h.spinner ≤ g.reacted_spin - 1 ∧ ¬ g.reacted_spin > 1/2) ∧
      ((∃ m : ℤ, g.reacted_spin = (m : ℚ)) →
        ∃ m : ℤ, h.reacted_spin = (m : ℚ))) ∧
    (∀ (o : Opts) (now td px py a : ℚ) (h : GestureState),
      (touchSample o now td none px py a).gesture = some h →
        h.reacted_spin = 0) ∧
    (∀ (o : Opts) (st : State) (inputs : List IterInput),
      reactedIntInv st → reactedIntInv (runLoop o st inputs).1) :=
  ⟨fun o now td g px py a h hh =>
      touchSample_some_reacted o now td g px py a h hh,
   fun o now td px py a h hh =>
      touchSample_none_reacted o now td px py a h hh,
   fun o st inputs h => runLoop_reactedIntInv o st inputs h⟩

unseal Rat.add Rat.mul Rat.sub Rat.inv in
theorem C4_reacted_spin_invariant_witness :
    (⟨305, 1369, 924, 1/10, 2, 2⟩ : GestureState).spinner ≥
      (⟨10, 1426, 748, 0, 19/10, 1⟩ : GestureState).reacted_spin + 1 := by
  have h := C4_reacted_spin_invariant.1 opts2 5 4000
    ⟨10, 1426, 748, 0, 19/10, 1⟩ 1369 924 (1/10)
    ⟨305, 1369, 924, 1/10, 2, 2⟩ (by decide)
  exact (h.2.1 (by norm_num)).1

unseal Rat.add Rat.mul Rat.sub Rat.inv in
/-- C1 (as stated) is false on the code: with `cw_spins_required = 2`,
three consecutive full clockwise revolutions inside one armed window
(the `cwRevolutionInputs 3` trace: 31 decagon samples, ten per
revolution) produce three `CW` reactions and invoke the CW command
twice — once after the second revolution and once again after the third —
not "exactly once in total". -/
theorem C1_three_revolutions_counterexample :
    reactionsOf (runLoop opts2 (State.waitingForTouches 4000 none)
      (cwRevolutionInputs 3)).2 =
        [Reaction.cw 1, Reaction.cw 2, Reaction.cw 3] ∧
    commandsOf (runLoop opts2 (State.waitingForTouches 4000 none)
      (cwRevolutionInputs 3)).2 = [Cmd.cw, Cmd.cw] ∧
    (commandsOf (runLoop opts2 (State.waitingForTouches 4000 none)
      (cwRevolutionInputs 3)).2).length ≠ 1 := by
  decide

unseal Rat.add Rat.mul Rat.sub Rat.inv in
/-- C1 (amended): with `cw_spins_required = 2`, the first `CW` reaction
(`reacted_spin == 1`) does not invoke the CW command; the second
(`reacted_spin == 2`) invokes it exactly once; and every further `CW`
reaction whose counter still meets the requirement invokes it again, so
over three consecutive full clockwise revolutions in one armed window the
command is invoked twice — after the second revolution and after the
third. -/
theorem C1_required_count_gating :
    commandsOf (runLoop opts2 (State.waitingForTouches 4000 none)
      (cwRevolutionInputs 1)).2 = [] ∧
    reactionsOf (runLoop opts2 (State.waitingForTouches 4000 none)
      (cwRevolutionInputs 1)).2 = [Reaction.cw 1] ∧
    commandsOf (runLoop opts2 (State.waitingForTouches 4000 none)
      (cwRevolutionInputs 2)).2 = [Cmd.cw] ∧
    reactionsOf (runLoop opts2 (State.waitingForTouches 4000 none)
      (cwRevolutionInputs 2)).2 = [Reaction.cw 1, Reaction.cw 2] ∧
    commandsOf (runLoop opts2 (State.waitingForTouches 4000 none)
      (cwRevolutionInputs 3)).2 = [Cmd.cw, Cmd.cw] ∧
    reactionsOf (runLoop opts2 (State.waitingForTouches 4000 none)
      (cwRevolutionInputs 3)).2 =
        [Reaction.cw 1, Reaction.cw 2, Reaction.cw 3] := by
  decide

/-- Sample indices of the C3 scenario: the gesture is created at angle
`0`, driven clockwise up to `spinner = 1.2` (crossing `+1` at the
eleventh sample), back down through `0.1` and `0.0`, and finally to
`spinner = -0.1`. -/
def c3indices : List ℕ :=
  [0, 1, 2, 3, 4, 5, 6, 7, 8, 9, 10, 11, 12,
   11, 10, 9, 8, 7, 6, 5, 4, 3, 2, 1, 0, 9]

def c3inputs : List IterInput :=
  c3indices.map (fun k => IterInput.touch 0 (some (decagonSample k)))

unseal Rat.add Rat.mul Rat.sub Rat.inv in
/-- C3: starting from `reacted_spin = 0`, driving `spinner` from `0` up to
`1.2` emits exactly one `CW` reaction and leaves
`spinner = reacted_spin = 1` (second conjunct: the state right after the
crossing sample); driving back down to `0.1` and even to exactly `0.0`
emits nothing further (third and fourth conjuncts: after 25 samples the
trace still shows the single `CW` reaction and the live gesture has
`spinner = 0`, `reacted_spin = 1`); the final sample takes `spinner` to
`-0.1 < reacted_spin - 1`, prints the reversal message and drops the
gesture; no command is ever invoked. -/
theorem C3_threshold_scenario :
    reactionsOf (runLoop opts2 (State.waitingForTouches 4000 none)
      c3inputs).2 = [Reaction.cw 1] ∧
    (runLoop opts2 (State.waitingForTouches 4000 none) (c3inputs.take 11)).1 =
      State.waitingForTouches 4000 (some ⟨300, 1426, 748, 0, 1, 1⟩) ∧
    reactionsOf (runLoop opts2 (State.waitingForTouches 4000 none)
      (c3inputs.take 25)).2 = [Reaction.cw 1] ∧
    (runLoop opts2 (State.waitingForTouches 4000 none) (c3inputs.take 25)).1 =
      State.waitingForTouches 4000 (some ⟨300, 1426, 748, 0, 0, 1⟩) ∧
    ((runLoop opts2 (State.waitingForTouches 4000 none) c3inputs).2.getLast?.map
      Obs.reversal) = some true ∧
    commandsOf (runLoop opts2 (State.waitingForTouches 4000 none)
      c3inputs).2 = [] ∧
    (runLoop opts2 (State.waitingForTouches 4000 none) c3inputs).1 =
      State.waitingForTouches 4000 none := by
  decide

end Andrgesture
